import Mathlib

/-!
Verification of the client-side data synchronization layer of the
foosball challenge frontend app: field normalizers, error classifier,
domain gateway validation, the application state store reducer, and
the join-in-flight guard, shallowly embedded from the TypeScript
source (`src/services/*.ts`, `src/context/AppContext.tsx`,
`src/App.tsx`, and the challenges-list component).
-/

namespace Foosball

/-! ## Strings: JS `toUpperCase` / `toLowerCase` on the ASCII values used here -/

/-- JS `String.prototype.toUpperCase` restricted to ASCII, which is all the
wire vocabulary uses (`Char.toUpper` is exactly the ASCII transformation). -/
def jsToUpper (s : String) : String :=
  ⟨s.data.map Char.toUpper⟩

/-- JS `String.prototype.toLowerCase` restricted to ASCII. -/
def jsToLower (s : String) : String :=
  ⟨s.data.map Char.toLower⟩

/-! ## Field normalizers (`src/services/ChallengesService.ts` lines 5–22) -/

/-- `normalizeExpertise` from `ChallengesService.ts`:
switch on `expertise.toUpperCase()` with a `'Beginner'` fallback. -/
def normalizeExpertise (expertise : String) : String :=
  if jsToUpper expertise = "BEGINNER" then "Beginner"
  else if jsToUpper expertise = "INTERMEDIATE" then "Intermediate"
  else if jsToUpper expertise = "EXPERT" then "Expert"
  else "Beginner"

/-- `normalizeTimeSlot` from `ChallengesService.ts`:
switch on `time.toUpperCase()` with a `'MORNING'` fallback. -/
def normalizeTimeSlot (time : String) : String :=
  if jsToUpper time = "MORNING" then "MORNING"
  else if jsToUpper time = "AFTERNOON" then "AFTERNOON"
  else if jsToUpper time = "EVENING" then "EVENING"
  else "MORNING"

/-! ## Data model (`src/types/index.ts`)

JS numbers are carried as `Rat`: every operation embedded here only
copies or compares them, never computes with them, so any carrier with
decidable equality is faithful. -/

/-- `Place.coordinates` — `{ lat: number; long: number }`. -/
structure Coordinates where
  lat : Rat
  long : Rat
deriving DecidableEq, Repr

/-- `Place` — venue with id, name, coordinates and status string. -/
structure Place where
  id : String
  name : String
  coordinates : Coordinates
  status : String
deriving DecidableEq, Repr

/-- `Player` — the wire/state record: `expertise` is kept as the raw
string the server sent (the TS type annotation narrows it, but at
runtime it is whatever string passed the validator). -/
structure Player where
  id : String
  name : String
  expertise : String
  points : Rat
deriving DecidableEq, Repr

/-- `Challenge` — id, name, embedded place, date, time slot, lifecycle
status, owner and participant list, all as they cross the wire. -/
structure Challenge where
  id : String
  name : String
  place : Place
  date : String
  time : String
  status : String
  owner : Player
  players : List Player
deriving DecidableEq, Repr

/-- `ErrorState` — classified error record (`type`, `message`, `retryable`). -/
structure ErrorState where
  type : String
  message : String
  retryable : Bool
deriving DecidableEq, Repr

/-- `NavigationState` — current section plus optional previous section. -/
structure NavigationState where
  currentSection : String
  previousSection : Option String := none
deriving DecidableEq, Repr

/-- `AppState` — the single aggregate held by the store
(`src/context/AppContext.tsx`). -/
structure AppState where
  currentPlayer : Option Player
  places : List Place
  challenges : List Challenge
  loading : Bool
  error : Option ErrorState
  navigation : NavigationState
deriving DecidableEq, Repr

/-- `AppAction` — the discriminated union of store transitions
(`src/types/index.ts`). -/
inductive AppAction where
  | setPlaces (payload : List Place)
  | setChallenges (payload : List Challenge)
  | setCurrentPlayer (payload : Player)
  | addChallenge (payload : Challenge)
  | joinChallenge (challengeId : String) (player : Player)
  | updatePlayer (payload : Player)
  | setLoading (payload : Bool)
  | setError (payload : Option ErrorState)
  | setNavigation (payload : NavigationState)
deriving DecidableEq, Repr

/-! ## The store reducer (`src/context/AppContext.tsx` lines 48–136) -/

/-- `appReducer` from `AppContext.tsx`, transcribed case by case. -/
def appReducer (state : AppState) (action : AppAction) : AppState :=
  match action with
  | .setPlaces payload =>
      { state with places := payload, loading := false, error := none }
  | .setChallenges payload =>
      { state with challenges := payload, loading := false, error := none }
  | .setCurrentPlayer payload =>
      { state with currentPlayer := some payload, loading := false, error := none }
  | .addChallenge payload =>
      { state with challenges := state.challenges ++ [payload],
                   loading := false, error := none }
  | .joinChallenge challengeId player =>
      { state with
          challenges := state.challenges.map fun challenge =>
            if challenge.id = challengeId then
              { challenge with players := challenge.players ++ [player] }
            else challenge,
          loading := false, error := none }
  | .updatePlayer payload =>
      { state with currentPlayer := some payload, loading := false, error := none }
  | .setLoading payload =>
      { state with loading := payload }
  | .setError payload =>
      { state with error := payload, loading := false }
  | .setNavigation payload =>
      { state with navigation := payload }

/-! ## Error classifier (`src/services/api.ts` lines 58–90) -/

/-- An `ApiServiceError` as thrown by `BaseApiService.request`: a numeric
status (0 reserved for connectivity failure) and a message. -/
structure ApiServiceError where
  status : Int
  message : String
deriving DecidableEq, Repr

/-- A value reaching a `catch` block: either an `ApiServiceError` or any
other thrown value (non-HTTP exception). -/
inductive Caught where
  | api (e : ApiServiceError)
  | other
deriving DecidableEq, Repr

/-- `BaseApiService.handleError`, transcribed branch by branch. -/
def handleError (error : Caught) : ErrorState :=
  match error with
  | .api e =>
      if e.status = 0 then
        { type := "network"
          message := "Network connection failed. Please check your internet connection."
          retryable := true }
      else if 400 ≤ e.status ∧ e.status < 500 then
        { type := "validation", message := e.message, retryable := false }
      else if 500 ≤ e.status then
        { type := "server"
          message := "Server error occurred. Please try again later."
          retryable := true }
      else
        { type := "unknown", message := "An unexpected error occurred.", retryable := true }
  | .other =>
      { type := "unknown", message := "An unexpected error occurred.", retryable := true }

/-! ## Response validators (`src/services/ChallengesService.ts` lines 46–88)

The `typeof` checks of the source are guaranteed by the typed embedding
(every field already has the right primitive kind), so only the
data-dependent checks — membership of enumerated fields in their accepted
sets — remain. -/

/-- `isPlayer`: the expertise string must be a canonical or upper-case
spelling of one of the three tiers. -/
def isPlayer (data : Player) : Bool :=
  ["Beginner", "Intermediate", "Expert"].contains data.expertise ||
  ["BEGINNER", "INTERMEDIATE", "EXPERT"].contains data.expertise

/-- `isPlace`: every check in the source is a `typeof` test, all of which
hold by construction on the typed `Place`. -/
def isPlace (_data : Place) : Bool := true

/-- `isChallenge`: structural checks plus the accepted sets for the time
slot and the lifecycle status. -/
def isChallenge (data : Challenge) : Bool :=
  isPlace data.place &&
  ["MORNING", "AFTERNOON", "EVENING", "NIGHT"].contains data.time &&
  ["OPEN", "CLOSED", "ACTIVE", "COMPLETED", "TERMINATED"].contains data.status &&
  isPlayer data.owner &&
  data.players.all isPlayer

/-! ## Challenge gateway (`src/services/ChallengesService.ts`) -/

/-- Decoded body of a 200 response to `GET /challenges`: either a JSON
object (whose `challenges` property may be absent, i.e. `undefined`) or a
bare JSON array. -/
inductive ChallengesPayload where
  | obj (challenges : Option (List Challenge))
  | arr (challenges : List Challenge)
deriving DecidableEq, Repr

/-- The JS property read `data["challenges"]`: on an array (or an object
without the key) the result is `undefined`, modelled as `none`. -/
def challengesProperty : ChallengesPayload → Option (List Challenge)
  | .obj challenges => challenges
  | .arr _ => none

/-- `ChallengesService.getChallenges` applied to a decoded 200 payload:
reads `data["challenges"]` and feeds it to
`validateResponse(…, isChallengeArray)`, which throws an
`ApiServiceError(422)` when `Array.isArray` fails (in particular on
`undefined`) or an element fails `isChallenge`. -/
def getChallenges (payload : ChallengesPayload) : Except ApiServiceError (List Challenge) :=
  match challengesProperty payload with
  | some challenges =>
      if challenges.all isChallenge then .ok challenges
      else .error ⟨422, "Invalid response format from server"⟩
  | none => .error ⟨422, "Invalid response format from server"⟩

/-- `ChallengesService.getOpenChallenges`: fetch all, then keep those
whose status lower-cases to `"open"`. -/
def getOpenChallenges (payload : ChallengesPayload) : Except ApiServiceError (List Challenge) :=
  (getChallenges payload).map fun challenges =>
    challenges.filter fun challenge => jsToLower challenge.status = "open"

/-- `ChallengesService.getChallengesByStatus`: the status filter in the
source is commented out, so the full fetched list is returned whatever
the requested status. -/
def getChallengesByStatus (_status : String) (payload : ChallengesPayload) :
    Except ApiServiceError (List Challenge) :=
  (getChallenges payload).map fun challenges => challenges

/-- `CreateChallengeRequest` as the create gateway actually reads it
(the source checks `ownerId` even though the declared TS interface lacks
it); a missing or empty JS field is modelled as `""`, both being falsy. -/
structure CreateChallengeRequest where
  name : String
  placeId : String
  date : String
  time : String
  ownerId : String
deriving DecidableEq, Repr

/-- What one gateway method invocation does, with its network activity
explicit: either a validation error thrown synchronously before any
network call, or the single HTTP request the method then issues. -/
inductive GatewayStep where
  | validationError (message : String)
  | httpRequest (method : String) (endpoint : String)
deriving DecidableEq, Repr

/-- Number of network calls a gateway step performs. -/
def networkCalls : GatewayStep → Nat
  | .validationError _ => 0
  | .httpRequest _ _ => 1

/-- Whether a gateway step is a synchronously raised validation error. -/
def isValidationError : GatewayStep → Bool
  | .validationError _ => true
  | .httpRequest _ _ => false

/-- `ChallengesService.createChallenge` up to its network boundary:
the five input checks in source order, then the POST. -/
def createChallenge (challenge : CreateChallengeRequest) : GatewayStep :=
  if challenge.name = "" then
    .validationError "Challenge name is required and must be a string"
  else if challenge.placeId = "" then
    .validationError "Place ID is required and must be a string"
  else if challenge.date = "" then
    .validationError "Date is required and must be a string"
  else if challenge.time ∉ (["MORNING", "AFTERNOON", "EVENING", "NIGHT"] : List String) then
    .validationError "Time is required and must be MORNING, AFTERNOON, or EVENING"
  else if challenge.ownerId = "" then
    .validationError "Owner ID is required and must be a string"
  else
    .httpRequest "POST" "/challenges"

/-! ## Profile gateway (`src/services/PlayersService.ts` lines 36–61) -/

/-- Outcome of the `request` call inside `getCurrentPlayer`: a decoded
200 body, or a thrown `ApiServiceError`. -/
inductive RequestOutcome where
  | success (data : Player)
  | failure (e : ApiServiceError)
deriving DecidableEq, Repr

/-- `PlayersService.getCurrentPlayer` after the `request` settles: a valid
body is normalized and returned; a validation failure throws
`ApiServiceError(422)` which the catch block rethrows (status 422 ≠ 0);
a status-0 failure is swallowed and the hardcoded demo profile returned;
any other failure is rethrown. -/
def getCurrentPlayer (outcome : RequestOutcome) : Except ApiServiceError Player :=
  match outcome with
  | .success data =>
      if isPlayer data then
        .ok { data with expertise := normalizeExpertise data.expertise }
      else
        .error ⟨422, "Invalid response format from server"⟩
  | .failure e =>
      if e.status = 0 then
        .ok { id := "player2", name := "Demo Player", expertise := "Intermediate", points := 150 }
      else
        .error e

/-! ## Join call sites (`src/App.tsx` lines 272–290 and the
challenges-list component)

Each handler is modelled at the moment it decides whether to issue the
join request, i.e. before its awaited call settles; the second component
is the number of join network requests that one invocation issues. -/

/-- `AppContent.handleJoinChallenge` (`src/App.tsx`): returns early when
no player is logged in, otherwise issues the join request unconditionally
— no in-flight marker is consulted. -/
def appHandleJoinChallenge (currentPlayer : Option Player) : Nat :=
  match currentPlayer with
  | none => 0
  | some _ => 1

/-- `ChallengesList.handleJoinChallenge` start (challenges-list
component): returns early when no player is logged in; returns early when
`joiningChallenges` already holds the id; otherwise marks the id as in
flight and issues the request. Yields the new marker set and the number
of requests issued. -/
def listHandleJoinChallenge (joiningChallenges : List String)
    (currentPlayer : Option Player) (challengeId : String) : List String × Nat :=
  match currentPlayer with
  | none => (joiningChallenges, 0)
  | some _ =>
      if joiningChallenges.contains challengeId then
        (joiningChallenges, 0)
      else
        (challengeId :: joiningChallenges, 1)

/-- The `finally` block of the list handler: the marker is removed once
the call settles. -/
def listJoinSettle (joiningChallenges : List String) (challengeId : String) : List String :=
  joiningChallenges.erase challengeId

/-- Total join requests issued by a burst of invocations of the list
handler, all before any of them settles (the marker set threads through,
starting empty). -/
def listJoinBurst (currentPlayer : Option Player) (ids : List String) : Nat :=
  (ids.foldl
    (fun acc id =>
      let step := listHandleJoinChallenge acc.1 currentPlayer id
      (step.1, acc.2 + step.2))
    (([] : List String), 0)).2

/-- Total join requests issued by a burst of invocations of the App-level
handler before any settles (it keeps no marker, so invocations are
independent). -/
def appJoinBurst (currentPlayer : Option Player) (ids : List String) : Nat :=
  ids.foldl (fun acc _ => acc + appHandleJoinChallenge currentPlayer) 0

/-! ## Sample concrete values used by witnesses and counterexamples -/

/-- A wire player in canonical form. -/
def samplePlayer : Player := ⟨"player1", "Alice", "Intermediate", 100⟩

/-- A wire venue. -/
def samplePlace : Place := ⟨"place1", "Downtown Club", ⟨40, -74⟩, "1"⟩

/-- A wire challenge with upper-case status `OPEN`, passing `isChallenge`. -/
def wireOpenChallenge : Challenge :=
  ⟨"ch1", "Morning Cup", samplePlace, "2024-01-15", "MORNING", "OPEN", samplePlayer, [samplePlayer]⟩

/-- A wire challenge with upper-case status `CLOSED`, passing `isChallenge`. -/
def wireClosedChallenge : Challenge :=
  ⟨"ch2", "Evening Cup", samplePlace, "2024-01-16", "EVENING", "CLOSED", samplePlayer, []⟩

/-- A sample classified error record. -/
def sampleError : ErrorState := ⟨"server", "boom", true⟩

/-- A state with the loading flag raised and an error present, whose
challenge collection does not contain any challenge with id `"nope"`. -/
def sampleBusyState : AppState :=
  { currentPlayer := some samplePlayer
    places := [samplePlace]
    challenges := [wireOpenChallenge]
    loading := true
    error := some sampleError
    navigation := ⟨"challenges", some "home"⟩ }

/-- Decidable equality for `Except`, used to evaluate gateway results on
concrete inputs. -/
instance {e a : Type} [DecidableEq e] [DecidableEq a] : DecidableEq (Except e a) := fun x y =>
  match x, y with
  | .ok u, .ok v =>
      if h : u = v then isTrue (by rw [h]) else isFalse (by intro hc; cases hc; exact h rfl)
  | .error u, .error v =>
      if h : u = v then isTrue (by rw [h]) else isFalse (by intro hc; cases hc; exact h rfl)
  | .ok _, .error _ => isFalse (fun hc => Except.noConfusion hc)
  | .error _, .ok _ => isFalse (fun hc => Except.noConfusion hc)

/-! ## Theorems -/

/-- C1 (counterexample): the claim says any status outside 0, 400–499 and
500–599 is classified `unknown`, but the classifier has no upper bound on
the server range: a caught `ApiServiceError` with status 600 is classified
`server`, not `unknown`. -/
theorem handleError_status600_not_unknown :
    handleError (.api ⟨600, "boom"⟩) =
      { type := "server", message := "Server error occurred. Please try again later."
        retryable := true }
  ∧ (handleError (.api ⟨600, "boom"⟩)).type ≠ "unknown" := by
  decide

/-- C1 (amended): the classifier maps status 0 to `network`/retryable,
400–499 to `validation`/not retryable, any status ≥ 500 (not only
500–599) to `server`/retryable, and every remaining status as well as any
non-HTTP exception to `unknown`/retryable. -/
theorem handleError_classification (status : Int) (msg : String) :
    (status = 0 →
      handleError (.api ⟨status, msg⟩) =
        { type := "network"
          message := "Network connection failed. Please check your internet connection."
          retryable := true })
  ∧ (400 ≤ status ∧ status ≤ 499 →
      handleError (.api ⟨status, msg⟩) =
        { type := "validation", message := msg, retryable := false })
  ∧ (500 ≤ status →
      handleError (.api ⟨status, msg⟩) =
        { type := "server", message := "Server error occurred. Please try again later."
          retryable := true })
  ∧ (status ≠ 0 → status < 400 →
      handleError (.api ⟨status, msg⟩) =
        { type := "unknown", message := "An unexpected error occurred.", retryable := true })
  ∧ handleError .other =
      { type := "unknown", message := "An unexpected error occurred.", retryable := true } := by
  refine ⟨?_, ?_, ?_, ?_, rfl⟩
  · intro h
    simp only [handleError]
    rw [if_pos h]
  · rintro ⟨h1, h2⟩
    have h0 : ¬ status = 0 := by omega
    have hr : (400 : Int) ≤ status ∧ status < 500 := ⟨h1, by omega⟩
    simp only [handleError]
    rw [if_neg h0, if_pos hr]
  · intro h5
    have h0 : ¬ status = 0 := by omega
    have hr : ¬((400 : Int) ≤ status ∧ status < 500) := by omega
    simp only [handleError]
    rw [if_neg h0, if_neg hr, if_pos h5]
  · intro h0 hlt
    have hr : ¬((400 : Int) ≤ status ∧ status < 500) := by omega
    have h5 : ¬(500 : Int) ≤ status := by omega
    simp only [handleError]
    rw [if_neg h0, if_neg hr, if_neg h5]

/-- C1 (witness): a 500 response is classified `server`/retryable, a 404
`validation`/not retryable, and a status-0 failure `network`/retryable. -/
theorem handleError_classification_witness :
    handleError (.api ⟨500, "m"⟩) =
      { type := "server", message := "Server error occurred. Please try again later."
        retryable := true }
  ∧ handleError (.api ⟨404, "not found"⟩) =
      { type := "validation", message := "not found", retryable := false }
  ∧ handleError (.api ⟨0, "m"⟩) =
      { type := "network"
        message := "Network connection failed. Please check your internet connection."
        retryable := true } :=
  ⟨(handleError_classification 500 "m").2.2.1 (by decide),
   (handleError_classification 404 "not found").2.1 (by decide),
   (handleError_classification 0 "m").1 rfl⟩

/-- C4 (counterexample): the claim says a NIGHT time-slot value passes
through unchanged, but the normalizer has no NIGHT case and its default
branch remaps it to MORNING. -/
theorem normalizeTimeSlot_NIGHT_remapped :
    normalizeTimeSlot "NIGHT" = "MORNING" ∧ normalizeTimeSlot "NIGHT" ≠ "NIGHT" := by
  decide

/-- C4 (amended): the time-slot normalizer maps MORNING, AFTERNOON and
EVENING (in any casing) to themselves, and maps NIGHT — like every other
unrecognized value — to the MORNING fallback rather than passing it
through. -/
theorem normalizeTimeSlot_spec (time : String) :
    (jsToUpper time = "MORNING" → normalizeTimeSlot time = "MORNING")
  ∧ (jsToUpper time = "AFTERNOON" → normalizeTimeSlot time = "AFTERNOON")
  ∧ (jsToUpper time = "EVENING" → normalizeTimeSlot time = "EVENING")
  ∧ (jsToUpper time ∉ (["MORNING", "AFTERNOON", "EVENING"] : List String) →
      normalizeTimeSlot time = "MORNING") := by
  refine ⟨?_, ?_, ?_, ?_⟩
  · intro h
    unfold normalizeTimeSlot
    rw [h]
    decide
  · intro h
    unfold normalizeTimeSlot
    rw [h]
    decide
  · intro h
    unfold normalizeTimeSlot
    rw [h]
    decide
  · intro h
    unfold normalizeTimeSlot
    rw [if_neg (fun e => h (by rw [e]; decide)),
        if_neg (fun e => h (by rw [e]; decide)),
        if_neg (fun e => h (by rw [e]; decide))]

/-- C4 (witness): a lower-case morning value is normalized to MORNING,
and a mixed-case Night value falls back to MORNING. -/
theorem normalizeTimeSlot_spec_witness :
    normalizeTimeSlot "morning" = "MORNING" ∧ normalizeTimeSlot "Night" = "MORNING" :=
  ⟨(normalizeTimeSlot_spec "morning").1 (by decide),
   (normalizeTimeSlot_spec "Night").2.2.2 (by decide)⟩

/-- C7 (confirmed): both normalizers are idempotent — applying either one
to its own output is a no-op, for every input string. -/
theorem normalize_idempotent (x : String) :
    normalizeExpertise (normalizeExpertise x) = normalizeExpertise x
  ∧ normalizeTimeSlot (normalizeTimeSlot x) = normalizeTimeSlot x := by
  constructor
  · have h : normalizeExpertise x = "Beginner" ∨ normalizeExpertise x = "Intermediate" ∨
        normalizeExpertise x = "Expert" := by
      unfold normalizeExpertise
      split_ifs <;> simp
    rcases h with h | h | h <;> rw [h] <;> decide
  · have h : normalizeTimeSlot x = "MORNING" ∨ normalizeTimeSlot x = "AFTERNOON" ∨
        normalizeTimeSlot x = "EVENING" := by
      unfold normalizeTimeSlot
      split_ifs <;> simp
    rcases h with h | h | h <;> rw [h] <;> decide

/-- C2 (counterexample): the claim says a record-join with no matching
challenge id returns a state deep-equal to the input, but like the other
collection transitions the JOIN_CHALLENGE case also sets `loading` to
false and `error` to null: on a state with the loading flag raised the
result differs from the input even though no challenge matches. -/
theorem joinChallenge_noMatch_not_deep_equal :
    (∀ c ∈ sampleBusyState.challenges, c.id ≠ "nope")
  ∧ appReducer sampleBusyState (.joinChallenge "nope" samplePlayer) ≠ sampleBusyState := by
  decide

/-- C2 (amended): a record-join with no matching challenge id leaves the
challenge collection (and every other collection) unchanged and raises no
error, but — like every transition except set-loading and set-navigation —
it resets `loading` to false and `error` to null; the state is deep-equal
to the input exactly when those two fields already had their reset
values. -/
theorem joinChallenge_noMatch (s : AppState) (challengeId : String) (player : Player)
    (h : ∀ c ∈ s.challenges, c.id ≠ challengeId) :
    appReducer s (.joinChallenge challengeId player) =
      { s with loading := false, error := none } := by
  have hmap : ∀ (l : List Challenge), (∀ c ∈ l, c.id ≠ challengeId) →
      (l.map fun challenge =>
        if challenge.id = challengeId then
          { challenge with players := challenge.players ++ [player] }
        else challenge) = l := by
    intro l hl
    induction l with
    | nil => rfl
    | cons a t ih =>
        have ha : a.id ≠ challengeId := hl a (List.mem_cons_self a t)
        simp only [List.map_cons, if_neg ha,
          ih fun c hc => hl c (List.mem_cons_of_mem a hc)]
  simp only [appReducer, hmap s.challenges h]

/-- C2 (witness): on the concrete busy state, whose only challenge id is
`"ch1"`, a record-join for the absent id `"nope"` yields exactly the
input state with loading cleared and error reset. -/
theorem joinChallenge_noMatch_witness :
    appReducer sampleBusyState (.joinChallenge "nope" samplePlayer) =
      { sampleBusyState with loading := false, error := none } :=
  joinChallenge_noMatch sampleBusyState "nope" samplePlayer (by decide)

/-- C3 (counterexample): the claim says set-loading is the only transition
that does not reset the error field, but the SET_NAVIGATION case also
leaves `error` untouched: navigating on a state holding an error keeps
that error. -/
theorem setNavigation_preserves_error :
    (appReducer sampleBusyState (.setNavigation ⟨"places", some "home"⟩)).error
      = some sampleError
  ∧ some sampleError ≠ (none : Option ErrorState) := by
  decide

/-- C3 (amended): both set-loading and set-navigation leave the error
field unchanged; set-error sets it to its payload; every other transition
clears it to null. -/
theorem appReducer_error_field (s : AppState) (a : AppAction) :
    (appReducer s a).error =
      match a with
      | .setLoading _ => s.error
      | .setNavigation _ => s.error
      | .setError payload => payload
      | _ => none := by
  cases a <;> rfl

/-- C5 (code bug): `getChallengesByStatus` documents and tests an exact
status filter, but the filter line is commented out: for a fetched list
holding an OPEN and a CLOSED challenge, requesting status OPEN returns
both (the CLOSED one included), while `getOpenChallenges` does filter
correctly. -/
theorem getChallengesByStatus_no_filter :
    getChallengesByStatus "OPEN" (.obj (some [wireOpenChallenge, wireClosedChallenge])) =
      .ok [wireOpenChallenge, wireClosedChallenge]
  ∧ wireClosedChallenge.status ≠ "OPEN"
  ∧ getOpenChallenges (.obj (some [wireOpenChallenge, wireClosedChallenge])) =
      .ok [wireOpenChallenge] := by
  decide

/-- C6 (confirmed): a create request with a missing/empty name, place id
or date, or a time outside the accepted set, is rejected synchronously as
a validation error, and zero network calls are issued. -/
theorem createChallenge_fail_fast (challenge : CreateChallengeRequest)
    (h : challenge.name = "" ∨ challenge.placeId = "" ∨ challenge.date = "" ∨
         challenge.time ∉ (["MORNING", "AFTERNOON", "EVENING", "NIGHT"] : List String)) :
    isValidationError (createChallenge challenge) = true
  ∧ networkCalls (createChallenge challenge) = 0 := by
  unfold createChallenge
  split_ifs with h1 h2 h3 h4 h5
  all_goals try exact ⟨rfl, rfl⟩
  exfalso
  rcases h with hx | hx | hx | hx
  · exact h1 hx
  · exact h2 hx
  · exact h3 hx
  · exact hx h4

/-- C6 (witness): the create request with an empty name (all other fields
valid) is rejected synchronously with no network call. -/
theorem createChallenge_fail_fast_witness :
    isValidationError (createChallenge ⟨"", "place1", "2024-01-15", "MORNING", "owner1"⟩) = true
  ∧ networkCalls (createChallenge ⟨"", "place1", "2024-01-15", "MORNING", "owner1"⟩) = 0 :=
  createChallenge_fail_fast _ (Or.inl rfl)

/-- C8 (counterexample): the claim says the in-flight guard holds at every
call site that issues joins, but the App-level handler consults no marker:
two joins for the same challenge id issued there before the first settles
make two network requests, not one. -/
theorem appJoin_two_calls :
    appJoinBurst (some samplePlayer) ["ch1", "ch1"] = 2
  ∧ appJoinBurst (some samplePlayer) ["ch1", "ch1"] ≠ 1 := by
  decide

/-- C8 (amended): the guard holds at the challenges-list call site — a
join for an id whose in-flight marker is set is ignored (state unchanged,
no request, no error), and two joins for the same id issued before the
first settles make exactly one request — while the App-level handler
consults no marker and issues one request per invocation. -/
theorem listJoin_guard (joining : List String) (player : Player) (challengeId : String) :
    (joining.contains challengeId = true →
      listHandleJoinChallenge joining (some player) challengeId = (joining, 0))
  ∧ listJoinBurst (some player) [challengeId, challengeId] = 1
  ∧ appHandleJoinChallenge (some player) = 1 := by
  refine ⟨?_, ?_, rfl⟩
  · intro h
    simp [listHandleJoinChallenge, h]
    exact List.mem_of_elem_eq_true h
  · simp [listJoinBurst, listHandleJoinChallenge]

/-- C8 (witness): with `"ch1"` already in flight the list handler ignores
a second join for it; a burst of two pre-settlement joins for `"ch1"`
issues exactly one request there; each App-level invocation issues one. -/
theorem listJoin_guard_witness :
    listHandleJoinChallenge ["ch1"] (some samplePlayer) "ch1" = (["ch1"], 0)
  ∧ listJoinBurst (some samplePlayer) ["ch1", "ch1"] = 1
  ∧ appHandleJoinChallenge (some samplePlayer) = 1 :=
  ⟨(listJoin_guard ["ch1"] samplePlayer "ch1").1 (by decide),
   (listJoin_guard ["ch1"] samplePlayer "ch1").2.1,
   (listJoin_guard ["ch1"] samplePlayer "ch1").2.2⟩

/-- C9 (code bug): the listing gateway reads `data["challenges"]`, which
is `undefined` on a bare array, so the documented legacy variant — a 200
response whose body is a bare array of valid challenges — is rejected as
a malformed response (`ApiServiceError` 422) instead of returning the
list; only the wrapped shape is accepted. -/
theorem getChallenges_rejects_bare_array :
    getChallenges (.arr [wireOpenChallenge]) =
      .error ⟨422, "Invalid response format from server"⟩
  ∧ isChallenge wireOpenChallenge = true
  ∧ getChallenges (.obj (some [wireOpenChallenge])) = .ok [wireOpenChallenge] := by
  decide

/-- C10 (confirmed): a status-0 (connectivity) failure of the
active-profile fetch is swallowed and the hardcoded demo profile
(`player2`, `Demo Player`, `Intermediate`, 150 points) returned; every
other failure — any non-zero HTTP status, and a malformed payload (which
becomes a 422) — is rethrown to the caller. -/
theorem getCurrentPlayer_spec (e : ApiServiceError) (raw : Player) :
    (e.status = 0 →
      getCurrentPlayer (.failure e) = .ok ⟨"player2", "Demo Player", "Intermediate", 150⟩)
  ∧ (e.status ≠ 0 → getCurrentPlayer (.failure e) = .error e)
  ∧ (isPlayer raw = false →
      getCurrentPlayer (.success raw) =
        .error ⟨422, "Invalid response format from server"⟩) := by
  refine ⟨?_, ?_, ?_⟩
  · intro h
    simp only [getCurrentPlayer]
    rw [if_pos h]
  · intro h
    simp only [getCurrentPlayer]
    rw [if_neg h]
  · intro h
    simp only [getCurrentPlayer]
    rw [if_neg (by simp [h])]

/-- C10 (witness): a concrete status-0 failure yields the demo profile, a
404 failure is rethrown as-is, and a payload whose expertise string is
unrecognized is rethrown as the 422 malformed-response error. -/
theorem getCurrentPlayer_spec_witness :
    getCurrentPlayer (.failure ⟨0, "connection refused"⟩) =
      .ok ⟨"player2", "Demo Player", "Intermediate", 150⟩
  ∧ getCurrentPlayer (.failure ⟨404, "not found"⟩) = .error ⟨404, "not found"⟩
  ∧ getCurrentPlayer (.success ⟨"p9", "Bob", "Guru", 1⟩) =
      .error ⟨422, "Invalid response format from server"⟩ :=
  ⟨(getCurrentPlayer_spec ⟨0, "connection refused"⟩ ⟨"p9", "Bob", "Guru", 1⟩).1 rfl,
   (getCurrentPlayer_spec ⟨404, "not found"⟩ ⟨"p9", "Bob", "Guru", 1⟩).2.1 (by decide),
   (getCurrentPlayer_spec ⟨404, "not found"⟩ ⟨"p9", "Bob", "Guru", 1⟩).2.2 (by decide)⟩

end Foosball
